import Mathlib

/-!
Verification of `src/modules/llms/openai/openai.router.ts` (big-AGI OpenAI
router): shallow embedding of the access resolver, wire payload builder,
POST error classification, chat response disambiguation and the model-list
filter/sort, with theorems for the specified properties.

JavaScript builtins used by the source (`JSON.parse`, string methods,
`Array.prototype.sort`, truthiness, template-literal stringification) are
modelled explicitly below; each model notes its scope.
-/

namespace OpenAIRouter

/-- JSON values, the result type of our model of `JSON.parse`.
Numbers are modelled as exact rationals (the source receives IEEE doubles;
the claims only involve small integers, where the two agree). -/
inductive Json where
  | null
  | bool (b : Bool)
  | num (q : Rat)
  | str (s : String)
  | arr (elems : List Json)
  | obj (fields : List (String × Json))

/-- Skip JSON whitespace (space, tab, newline, carriage return). -/
def skipWs : List Char → List Char
  | c :: cs => if c = ' ' ∨ c = '\t' ∨ c = '\n' ∨ c = '\r' then skipWs cs else c :: cs
  | [] => []

/-- Digit character to its value, if a digit. -/
def digitVal (c : Char) : Option Nat :=
  if '0' ≤ c ∧ c ≤ '9' then some (c.toNat - '0'.toNat) else none

/-- Hex digit character to its value, if a hex digit. -/
def hexVal (c : Char) : Option Nat :=
  if '0' ≤ c ∧ c ≤ '9' then some (c.toNat - '0'.toNat)
  else if 'a' ≤ c ∧ c ≤ 'f' then some (c.toNat - 'a'.toNat + 10)
  else if 'A' ≤ c ∧ c ≤ 'F' then some (c.toNat - 'A'.toNat + 10)
  else none

/-- Fold a digit list into a natural number. -/
def digitsToNat (ds : List Nat) : Nat :=
  ds.foldl (fun acc d => acc * 10 + d) 0

/-- Take the longest digit run at the front; `none` if there is none. -/
def takeDigits : List Char → List Nat × List Char
  | c :: cs =>
    match digitVal c with
    | some d => let (ds, rest) := takeDigits cs; (d :: ds, rest)
    | none => ([], c :: cs)
  | [] => ([], [])

/-- Parse the body of a JSON string (after the opening quote), handling
the standard escapes. `\uXXXX` escapes are mapped through `Char.ofNat`
(lone surrogates degrade to NUL; the claims use plain ASCII strings). -/
def parseJsonStringAux (acc : List Char) : List Char → Option (String × List Char)
  | '"' :: rest => some (⟨acc.reverse⟩, rest)
  | '\\' :: e :: rest =>
    match e with
    | '"' => parseJsonStringAux ('"' :: acc) rest
    | '\\' => parseJsonStringAux ('\\' :: acc) rest
    | '/' => parseJsonStringAux ('/' :: acc) rest
    | 'b' => parseJsonStringAux ('\x08' :: acc) rest
    | 'f' => parseJsonStringAux ('\x0c' :: acc) rest
    | 'n' => parseJsonStringAux ('\n' :: acc) rest
    | 'r' => parseJsonStringAux ('\x0d' :: acc) rest
    | 't' => parseJsonStringAux ('\t' :: acc) rest
    | 'u' =>
      match rest with
      | h1 :: h2 :: h3 :: h4 :: rest2 =>
        match hexVal h1, hexVal h2, hexVal h3, hexVal h4 with
        | some a, some b, some c, some d =>
          parseJsonStringAux (Char.ofNat (((a * 16 + b) * 16 + c) * 16 + d) :: acc) rest2
        | _, _, _, _ => none
      | _ => none
    | _ => none
  | c :: rest => if c.toNat < 0x20 then none else parseJsonStringAux (c :: acc) rest
  | [] => none

/-- Numeric value of a parsed JSON number from its parts. -/
def jsonNumValue (neg : Bool) (intPart : Nat) (fracDs : List Nat) (expNeg : Bool)
    (expVal : Nat) : Rat :=
  let mantissa : Int := (digitsToNat (fracDs.foldl (fun acc d => acc ++ [d]) [intPart]) : Int)
  let signed : Int := if neg then -mantissa else mantissa
  let denom : Nat := 10 ^ fracDs.length * (if expNeg then 10 ^ expVal else 1)
  let scaled : Int := signed * (if expNeg then 1 else (10 : Int) ^ expVal)
  mkRat scaled denom

/-- Parse a JSON number token (sign, integer part without leading zeros,
optional fraction, optional exponent). -/
def parseJsonNumber (cs : List Char) : Option (Json × List Char) :=
  let (neg, cs1) := match cs with
    | '-' :: rest => (true, rest)
    | _ => (false, cs)
  match cs1 with
  | '0' :: rest =>
    match digitVal (rest.headD ' ') with
    | some _ => none
    | none => parseJsonNumberFrac neg 0 rest
  | c :: rest =>
    match digitVal c with
    | some d =>
      if d = 0 then none
      else
        let (ds, rest2) := takeDigits rest
        parseJsonNumberFrac neg (digitsToNat (d :: ds)) rest2
    | none => none
  | [] => none
where
  /-- Fraction and exponent tail of a number. -/
  parseJsonNumberFrac (neg : Bool) (intPart : Nat) (cs : List Char) :
      Option (Json × List Char) :=
    let (fracDs, cs2) := match cs with
      | '.' :: rest =>
        match takeDigits rest with
        | ([], _) => ([], '.' :: rest)
        | (ds, rest2) => (ds, rest2)
      | _ => ([], cs)
    match cs, fracDs with
    | '.' :: _, [] => none
    | _, _ =>
      match cs2 with
      | e :: rest3 =>
        if e = 'e' ∨ e = 'E' then
          let (expNeg, rest4) := match rest3 with
            | '-' :: r => (true, r)
            | '+' :: r => (false, r)
            | _ => (false, rest3)
          match takeDigits rest4 with
          | ([], _) => none
          | (eds, rest5) =>
            some (.num (jsonNumValue neg intPart fracDs expNeg (digitsToNat eds)), rest5)
        else some (.num (jsonNumValue neg intPart fracDs false 0), cs2)
      | [] => some (.num (jsonNumValue neg intPart fracDs false 0), [])

mutual

/-- Fuel-indexed recursive-descent parser for a JSON value. -/
def parseJsonValue : Nat → List Char → Option (Json × List Char)
  | 0, _ => none
  | fuel + 1, cs =>
    match skipWs cs with
    | 'n' :: 'u' :: 'l' :: 'l' :: rest => some (.null, rest)
    | 't' :: 'r' :: 'u' :: 'e' :: rest => some (.bool true, rest)
    | 'f' :: 'a' :: 'l' :: 's' :: 'e' :: rest => some (.bool false, rest)
    | '"' :: rest => (parseJsonStringAux [] rest).map (fun p => (.str p.1, p.2))
    | '[' :: rest =>
      (match skipWs rest with
       | ']' :: rest2 => some (.arr [], rest2)
       | _ => parseJsonArrayItems fuel rest [])
    | '\x7b' :: rest =>
      (match skipWs rest with
       | '\x7d' :: rest2 => some (.obj [], rest2)
       | _ => parseJsonObjectItems fuel rest [])
    | c :: rest => parseJsonNumber (c :: rest)
    | [] => none

/-- Comma-separated array items, accumulating in reverse. -/
def parseJsonArrayItems : Nat → List Char → List Json → Option (Json × List Char)
  | 0, _, _ => none
  | fuel + 1, cs, acc =>
    match parseJsonValue fuel cs with
    | some (v, rest) =>
      (match skipWs rest with
       | ',' :: rest2 => parseJsonArrayItems fuel rest2 (v :: acc)
       | ']' :: rest2 => some (.arr (v :: acc).reverse, rest2)
       | _ => none)
    | none => none

/-- Comma-separated `"key": value` object members, accumulating in reverse. -/
def parseJsonObjectItems : Nat → List Char → List (String × Json) →
    Option (Json × List Char)
  | 0, _, _ => none
  | fuel + 1, cs, acc =>
    match skipWs cs with
    | '"' :: rest =>
      (match parseJsonStringAux [] rest with
       | some (key, rest2) =>
         (match skipWs rest2 with
          | ':' :: rest3 =>
            (match parseJsonValue fuel rest3 with
             | some (v, rest4) =>
               (match skipWs rest4 with
                | ',' :: rest5 => parseJsonObjectItems fuel rest5 ((key, v) :: acc)
                | '\x7d' :: rest5 => some (.obj ((key, v) :: acc).reverse, rest5)
                | _ => none)
             | none => none)
          | _ => none)
       | none => none)
    | _ => none

end

/-- Model of `JSON.parse`: parse one value, require only whitespace after it;
`none` models a thrown `SyntaxError`. -/
def jsonParse (s : String) : Option Json :=
  match parseJsonValue (s.length + 1) s.data with
  | some (v, rest) => if skipWs rest = [] then some v else none
  | none => none

example : jsonParse "\x7b\"a\":1\x7d" =
    some (.obj [("a", .num 1)]) := by rfl

example : jsonParse "not json" = none := by rfl

example : jsonParse "" = none := by rfl

example : jsonParse " null " = some .null := by rfl

example : jsonParse "[1, 2]" = some (.arr [.num 1, .num 2]) := by rfl

/-! ## JavaScript value semantics used by the source -/

/-- JS truthiness of a decoded JSON value (`false`, `0`, `""`, `null` are falsy). -/
def jsTruthy : Json → Bool
  | .null => false
  | .bool b => b
  | .num q => q ≠ 0
  | .str s => s ≠ ""
  | .arr _ => true
  | .obj _ => true

/-- JS property read `v[k]` on a decoded JSON value; `none` models `undefined`.
Only objects have own data properties here; duplicate keys: last one wins,
as in `JSON.parse`. -/
def jsGet : Json → String → Option Json
  | .obj fields, k => List.lookup k fields.reverse
  | _, _ => none

mutual

/-- JS string coercion of a decoded JSON value, as used by template literals
and `.toString()`. Non-integer numbers are rendered as `num/den` rather than
decimal notation (the claims never stringify a non-integer number). -/
def jsToString : Json → String
  | .null => "null"
  | .bool b => if b then "true" else "false"
  | .num q => if q.den = 1 then toString q.num else toString q.num ++ "/" ++ toString q.den
  | .str s => s
  | .arr es => jsArrJoin es
  | .obj _ => "[object Object]"

/-- `Array.prototype.toString`: elements joined by `","`, with `null`
rendered as the empty string. -/
def jsArrJoin : List Json → String
  | [] => ""
  | [.null] => ""
  | [e] => jsToString e
  | .null :: es => "," ++ jsArrJoin es
  | e :: es => jsToString e ++ "," ++ jsArrJoin es

end

/-- JS `a || b` on strings (empty string is falsy). -/
def jsOr (a b : String) : String := if a = "" then b else a

/-- Keep a possibly-`undefined` value only if truthy: one step of a JS `||` chain. -/
def jsPickTruthy : Option Json → Option Json
  | some v => if jsTruthy v then some v else none
  | none => none

/-! ## Error model (`TRPCError`) -/

/-- The TRPC error codes used by the router. -/
inductive TRPCCode where
  | BAD_REQUEST
  | INTERNAL_SERVER_ERROR
  | CLIENT_CLOSED_REQUEST
deriving DecidableEq

/-- A thrown `TRPCError ({code, message})`. -/
structure TRPCError where
  code : TRPCCode
  message : String
deriving DecidableEq

/-! ## Wire response shapes (the parts the router reads) -/

/-- `function_call` payload of a completion message: `{name, arguments}`.
Absent fields are modelled as `""`, which the source's falsy checks treat
identically. -/
structure WireFunctionCall where
  name : String
  arguments : String
deriving DecidableEq

/-- A completion choice's `message`: role, nullable content, optional
`function_call` payload. -/
structure WireMessage where
  role : String
  content : Option String
  function_call : Option WireFunctionCall
deriving DecidableEq

/-- One element of the provider's `choices` array. -/
structure WireChoice where
  message : WireMessage
  finish_reason : Option String
deriving DecidableEq

/-- The provider's chat-completion response; `choices` may be absent
(`wireCompletions?.choices` in the source). -/
structure WireChatResponse where
  choices : Option (List WireChoice)
deriving DecidableEq

/-- The router's output union: a plain message or a function call. -/
inductive ChatOutcome where
  | message (role : String) (content : String) (finish_reason : Option String)
  | functionCall (function_name : String) (function_arguments : Json)

/-- Whether the outcome is the Message variant. -/
def ChatOutcome.isMessage : ChatOutcome → Bool
  | .message _ _ _ => true
  | .functionCall _ _ => false

/-- Whether the outcome is the FunctionCall variant. -/
def ChatOutcome.isFunctionCall : ChatOutcome → Bool
  | .message _ _ _ => false
  | .functionCall _ _ => true

/-! ## Response disambiguation (`parseChatGenerateFCOutput`,
`parseChatGenerateOutput`, and the choice-count check in
`chatGenerateWithFunctions`) -/

/-- Error thrown when a function call arrives but none was requested. -/
def fcNotRequestedError : TRPCError :=
  ⟨.INTERNAL_SERVER_ERROR, "[OpenAI Issue] Received a function call without a function call request"⟩

/-- Error thrown when a function-call message also carries content. -/
def gotMessageError : TRPCError :=
  ⟨.INTERNAL_SERVER_ERROR, "[OpenAI Issue] Expected a function call, got a message"⟩

/-- Error thrown when the function-call payload lacks a name or arguments. -/
def missingNameArgsError : TRPCError :=
  ⟨.INTERNAL_SERVER_ERROR, "[OpenAI Issue] Issue with the function call, missing name or arguments"⟩

/-- Error thrown when the function-call arguments are not valid JSON. -/
def badJsonArgsError : TRPCError :=
  ⟨.INTERNAL_SERVER_ERROR, "[OpenAI Issue] Issue with the function call, arguments are not valid JSON"⟩

/-- Error thrown when a non-function-call message has null content. -/
def nullMessageError : TRPCError :=
  ⟨.INTERNAL_SERVER_ERROR, "[OpenAI Issue] Expected a message, got a null message"⟩

/-- `parseChatGenerateFCOutput(isFunctionsCall, message)`: validates and
decodes a function-call message. -/
def parseChatGenerateFCOutput (isFunctionsCall : Bool) (message : WireMessage) :
    Except TRPCError ChatOutcome :=
  if !isFunctionsCall then
    .error fcNotRequestedError
  else if message.content ≠ none then
    .error gotMessageError
  else
    match message.function_call with
    | none => .error missingNameArgsError
    | some fc =>
      if fc.name = "" ∨ fc.arguments = "" then
        .error missingNameArgsError
      else
        match jsonParse fc.arguments with
        | none => .error badJsonArgsError
        | some fcArgs => .ok (.functionCall fc.name fcArgs)

/-- `parseChatGenerateOutput(message, finish_reason)`: validates a plain
message. -/
def parseChatGenerateOutput (message : WireMessage) (finish_reason : Option String) :
    Except TRPCError ChatOutcome :=
  match message.content with
  | none => .error nullMessageError
  | some content => .ok (.message message.role content finish_reason)

/-- Stringification of `wireCompletions?.choices?.length` for the
choice-count error message (`undefined` when `choices` is absent). -/
def choicesLenStr : Option (List WireChoice) → String
  | none => "undefined"
  | some cs => toString cs.length

/-- The "Expected 1 completion" error thrown before disambiguation. -/
def expectedOneError (choices : Option (List WireChoice)) : TRPCError :=
  ⟨.INTERNAL_SERVER_ERROR, "[OpenAI Issue] Expected 1 completion, got " ++ choicesLenStr choices⟩

/-- The response-handling tail of `chatGenerateWithFunctions`: choice-count
check, then branch on `finish_reason === 'function_call'`. -/
def chatGenerateParse (isFunctionsCall : Bool) (wire : WireChatResponse) :
    Except TRPCError ChatOutcome :=
  match wire.choices with
  | some [choice] =>
    if choice.finish_reason = some "function_call" then
      parseChatGenerateFCOutput isFunctionsCall choice.message
    else
      parseChatGenerateOutput choice.message choice.finish_reason
  | other => .error (expectedOneError other)

/-! ## POST error classification (`openaiPOST`) -/

/-- The part of a `fetch` response the source reads: `ok` flag, status text,
and the outcome of `response.json()` (`.error` carries the thrown
exception's message). -/
structure HttpResponse where
  ok : Bool
  statusText : String
  jsonBody : Except String Json

/-- The provider-message chain
`error?.error?.message || error?.error || error?.toString() || 'Unknown error'`,
with the final template-literal string coercion applied to the first truthy
value. -/
def providerErrMsg (error : Json) : String :=
  match jsPickTruthy ((jsGet error "error").bind (fun e => jsGet e "message")) with
  | some v => jsToString v
  | none =>
    match jsPickTruthy (jsGet error "error") with
    | some v => jsToString v
    | none =>
      let ts := jsToString error
      if ts = "" then "Unknown error" else ts

/-- Response handling of `openaiPOST`: on `!response.ok`, try the error body
(the local `error` stays `null` when `response.json()` throws) and classify
as `BAD_REQUEST`; on success, a JSON-decode failure becomes
`INTERNAL_SERVER_ERROR` (its message interpolates the exception's
`error?.message || error`, modelled as the carried message). -/
def openaiPOSTResult (r : HttpResponse) : Except TRPCError Json :=
  if !r.ok then
    let error : Json := match r.jsonBody with
      | .ok v => v
      | .error _ => Json.null
    .error ⟨.BAD_REQUEST,
      if jsTruthy error then "[OpenAI Issue] " ++ providerErrMsg error
      else "[Issue] " ++ r.statusText⟩
  else
    match r.jsonBody with
    | .ok v => .ok v
    | .error emsg => .error ⟨.INTERNAL_SERVER_ERROR, "[OpenAI Issue] " ++ emsg⟩

/-! ## JS string primitives (models of the string builtins the source uses) -/

/-- Does the second list start with the first? (`String.prototype.startsWith`
on char lists; also the core of `includes`.) -/
def strHasPrefixAux : List Char → List Char → Bool
  | [], _ => true
  | _ :: _, [] => false
  | p :: ps, c :: cs => p = c && strHasPrefixAux ps cs

/-- `s.startsWith(p)`. -/
def jsStartsWith (s p : String) : Bool := strHasPrefixAux p.data s.data

/-- `s.endsWith(p)`. -/
def jsEndsWith (s p : String) : Bool := strHasPrefixAux p.data.reverse s.data.reverse

/-- `s.slice(0, -1)`: drop the final character. -/
def jsDropLastChar (s : String) : String := ⟨s.data.dropLast⟩

/-- `s.slice(0, 5)`: the first five characters. -/
def jsTake5 (s : String) : String := ⟨s.data.take 5⟩

/-- Occurrence search for `includes`. -/
def jsIncludesAux (needle : List Char) : List Char → Bool
  | [] => needle.isEmpty
  | c :: cs => strHasPrefixAux needle (c :: cs) || jsIncludesAux needle cs

/-- `s.includes(sub)`. -/
def jsIncludes (s sub : String) : Bool := jsIncludesAux sub.data s.data

/-- `s.split('-').length`: one more than the number of `'-'` occurrences. -/
def dashSegments (s : String) : Nat := (s.data.filter (fun c => c = '-')).length + 1

/-! ## Access resolver (`openAIAccess`) -/

/-- The `process.env` variables the resolver reads; `""` models an unset
variable (indistinguishable under `||`). -/
structure Env where
  OPENAI_API_KEY : String
  OPENAI_API_ORG_ID : String
  OPENAI_API_HOST : String
  HELICONE_API_KEY : String

/-- The validated `access` input object. -/
structure AccessSchema where
  oaiKey : String
  oaiOrg : String
  oaiHost : String
  heliKey : String
  moderationCheck : Bool

/-- `access.oaiHost || process.env.OPENAI_API_HOST || 'https://api.openai.com'`. -/
def resolvedHost (env : Env) (access : AccessSchema) : String :=
  jsOr access.oaiHost (jsOr env.OPENAI_API_HOST "https://api.openai.com")

/-- `openAIAccess(access, apiPath)`: resolve key, org, host (scheme prefix and
boundary-slash collapse) and Helicone key into headers and a URL; `.error`
models the thrown `Error` for a missing key. -/
def openAIAccess (env : Env) (access : AccessSchema) (apiPath : String) :
    Except String (List (String × String) × String) :=
  let oaiKey := jsOr access.oaiKey (jsOr env.OPENAI_API_KEY "")
  if oaiKey = "" then
    .error "Missing OpenAI API Key. Add it on the UI (Models Setup) or server side (your deployment)."
  else
    let oaiOrg := jsOr access.oaiOrg (jsOr env.OPENAI_API_ORG_ID "")
    let oaiHost0 := resolvedHost env access
    let oaiHost1 := if !jsStartsWith oaiHost0 "http" then "https://" ++ oaiHost0 else oaiHost0
    let oaiHost2 :=
      if jsEndsWith oaiHost1 "/" && jsStartsWith apiPath "/" then jsDropLastChar oaiHost1
      else oaiHost1
    let heliKey := jsOr access.heliKey (jsOr env.HELICONE_API_KEY "")
    .ok
      ([("Authorization", "Bearer " ++ oaiKey), ("Content-Type", "application/json")]
          ++ (if oaiOrg ≠ "" then [("OpenAI-Organization", oaiOrg)] else [])
          ++ (if heliKey ≠ "" then [("Helicone-Auth", "Bearer " ++ heliKey)] else []),
        oaiHost2 ++ apiPath)

/-! ## Wire payload builder (`openAIChatCompletionPayload`) -/

/-- One conversation message. -/
structure ChatMessage where
  role : String
  content : String
deriving DecidableEq

/-- One property in a function definition's parameter schema. -/
structure FunctionParamProp where
  type : String
  description : Option String
  enum : Option (List String)
deriving DecidableEq

/-- A function definition's `parameters` object. -/
structure FunctionParams where
  type : String
  properties : List (String × FunctionParamProp)
  required : Option (List String)
deriving DecidableEq

/-- A caller-declared function definition. -/
structure FunctionDef where
  name : String
  description : Option String
  parameters : Option FunctionParams
deriving DecidableEq

/-- The validated `model` input object. -/
structure ModelSchema where
  id : String
  temperature : Option Rat
  maxTokens : Option Nat
deriving DecidableEq

/-- The provider's chat-completion request; `none` in an optional field means
the key is absent from the JSON object. -/
structure WireChatRequest where
  model : String
  messages : List ChatMessage
  functions : Option (List FunctionDef)
  function_call : Option String
  temperature : Option Rat
  max_tokens : Option Nat
  n : Nat
  stream : Bool
deriving DecidableEq

/-- `openAIChatCompletionPayload(model, history, functions, n, stream)`:
spread-based construction; `functions &&` spreads for any non-null array
(also an empty one), `model.temperature &&` and `model.maxTokens &&` drop
both undefined and `0`. -/
def openAIChatCompletionPayload (model : ModelSchema) (history : List ChatMessage)
    (functions : Option (List FunctionDef)) (n : Nat) (stream : Bool) : WireChatRequest :=
  { model := model.id
    messages := history
    functions := functions
    function_call := if functions.isSome then some "auto" else none
    temperature :=
      match model.temperature with
      | some t => if t = 0 then none else some t
      | none => none
    max_tokens :=
      match model.maxTokens with
      | some m => if m = 0 then none else some m
      | none => none
    n := n
    stream := stream }

/-- `!!functions && functions.length > 0` in `chatGenerateWithFunctions`. -/
def isFunctionsCall (functions : Option (List FunctionDef)) : Bool :=
  functions.isSome && decide ((functions.getD []).length > 0)

/-- The payload as built inside `chatGenerateWithFunctions`:
`openAIChatCompletionPayload(model, history, isFunctionsCall ? functions : null, 1, false)`. -/
def routerChatPayload (model : ModelSchema) (history : List ChatMessage)
    (functions : Option (List FunctionDef)) : WireChatRequest :=
  openAIChatCompletionPayload model history
    (if isFunctionsCall functions then functions else none) 1 false

/-! ## Model list filter and sort (`listModels`) -/

/-- A catalog entry; the filter and comparator read only `id`. -/
structure ModelDescription where
  id : String
deriving DecidableEq

/-- Three-way comparison on naturals. -/
def natCmp (a b : Nat) : Ordering :=
  if a < b then .lt else if b < a then .gt else .eq

/-- Code-unit three-way comparison on char lists (our model of
`localeCompare`, which agrees with it on the ASCII model ids at hand). -/
def listCharCmp : List Char → List Char → Ordering
  | [], [] => .eq
  | [], _ :: _ => .lt
  | _ :: _, [] => .gt
  | a :: as, b :: bs =>
    match natCmp a.toNat b.toNat with
    | .eq => listCharCmp as bs
    | o => o

/-- String three-way comparison (model of `localeCompare`). -/
def strCmpJs (a b : String) : Ordering := listCharCmp a.data b.data

/-- The source's sort comparator: first 5 characters of id descending;
tie-break on the number of `'-'`-delimited segments ascending; final
tie-break on the full id ascending. -/
def modelCmp (a b : ModelDescription) : Ordering :=
  let aId := jsTake5 a.id
  let bId := jsTake5 b.id
  if aId = bId then
    let aCount := dashSegments a.id
    let bCount := dashSegments b.id
    if aCount = bCount then strCmpJs a.id b.id
    else natCmp aCount bCount
  else strCmpJs bId aId

/-- `a` may stay before `b` under the comparator (comparator value ≤ 0). -/
def modelLe (a b : ModelDescription) : Bool := modelCmp a b ≠ .gt

/-- Insert into a sorted list (model of the order `Array.prototype.sort`
produces for a total, antisymmetric comparator). -/
def insertBy (le : α → α → Bool) (x : α) : List α → List α
  | [] => [x]
  | y :: ys => if le x y then x :: y :: ys else y :: insertBy le x ys

/-- Comparator sort (model of `Array.prototype.sort`). -/
def sortBy (le : α → α → Bool) : List α → List α
  | [] => []
  | x :: xs => insertBy le x (sortBy le xs)

/-- `listModels` response handling: keep ids containing `'gpt'`, then sort
with the comparator. -/
def listModelsFilterSort (models : List ModelDescription) : List ModelDescription :=
  sortBy modelLe (models.filter (fun m => jsIncludes m.id "gpt"))

/-- The specification's sort key, as a three-way comparison chain: first 5
characters of id descending lexicographic, then `'-'`-segment count
ascending, then full id ascending. -/
def specModelCmp (a b : ModelDescription) : Ordering :=
  (strCmpJs (jsTake5 b.id) (jsTake5 a.id)).then
    ((natCmp (dashSegments a.id) (dashSegments b.id)).then (strCmpJs a.id b.id))

/-- Non-strict order induced by the specification's sort key. -/
def specModelLe (a b : ModelDescription) : Bool := specModelCmp a b ≠ .gt

/-- The URL computation inside `openAIAccess`, as its own definition. -/
def resolvedUrl (env : Env) (access : AccessSchema) (apiPath : String) : String :=
  let oaiHost0 := resolvedHost env access
  let oaiHost1 := if !jsStartsWith oaiHost0 "http" then "https://" ++ oaiHost0 else oaiHost0
  let oaiHost2 :=
    if jsEndsWith oaiHost1 "/" && jsStartsWith apiPath "/" then jsDropLastChar oaiHost1
    else oaiHost1
  oaiHost2 ++ apiPath

/-! ## Helper lemmas -/

theorem string_data_append (a b : String) : (a ++ b).data = a.data ++ b.data := by
  cases a; cases b; rfl

theorem string_eq_of_data_eq {a b : String} (h : a.data = b.data) : a = b := by
  cases a; cases b; exact congrArg String.mk h

theorem strHasPrefixAux_of_append (p rest : List Char) :
    strHasPrefixAux p (p ++ rest) = true := by
  induction p with
  | nil => rfl
  | cons c cs ih => simp [strHasPrefixAux, ih]

theorem dropLast_append_ne_nil (l₁ : List Char) {l₂ : List Char} (h : l₂ ≠ []) :
    (l₁ ++ l₂).dropLast = l₁ ++ l₂.dropLast := by
  induction l₁ with
  | nil => rfl
  | cons c cs ih =>
    cases hcs : cs ++ l₂ with
    | nil => exact absurd (List.append_eq_nil.mp hcs).2 h
    | cons d ds =>
      rw [List.cons_append, hcs, List.dropLast_cons₂, ← hcs, ih, List.cons_append]

theorem resolvedHost_ne_empty (env : Env) (access : AccessSchema) :
    resolvedHost env access ≠ "" := by
  unfold resolvedHost jsOr
  split
  · split
    · decide
    · assumption
  · assumption

theorem data_ne_nil_of_ne_empty {s : String} (h : s ≠ "") : s.data ≠ [] :=
  fun hd => h (string_eq_of_data_eq hd)

theorem jsDropLastChar_data (s : String) : (jsDropLastChar s).data = s.data.dropLast := rfl

/-- If the resolved host does not pass the `startsWith('http')` test, the
resolved URL starts with `https://`. -/
theorem resolvedUrl_startsWith_https (env : Env) (access : AccessSchema) (apiPath : String)
    (h : jsStartsWith (resolvedHost env access) "http" = false) :
    jsStartsWith (resolvedUrl env access apiPath) "https://" = true := by
  have hne : (resolvedHost env access).data ≠ [] :=
    data_ne_nil_of_ne_empty (resolvedHost_ne_empty env access)
  simp only [resolvedUrl, h, Bool.not_false, if_true]
  split
  · unfold jsStartsWith
    rw [string_data_append, jsDropLastChar_data, string_data_append,
      dropLast_append_ne_nil _ hne, List.append_assoc]
    exact strHasPrefixAux_of_append _ _
  · unfold jsStartsWith
    rw [string_data_append, string_data_append, List.append_assoc]
    exact strHasPrefixAux_of_append _ _

theorem openAIAccess_url_eq (env : Env) (access : AccessSchema) (apiPath : String)
    (hdrs : List (String × String)) (url : String)
    (h : openAIAccess env access apiPath = .ok (hdrs, url)) :
    url = resolvedUrl env access apiPath := by
  simp only [openAIAccess] at h
  split at h
  · exact Except.noConfusion h
  · simp only [Except.ok.injEq, Prod.mk.injEq] at h
    exact h.2.symm

theorem natCmp_self (a : Nat) : natCmp a a = .eq := by simp [natCmp]

theorem natCmp_eq_eq {a b : Nat} (h : natCmp a b = .eq) : a = b := by
  unfold natCmp at h
  split at h
  · exact absurd h (by simp)
  · split at h
    · exact absurd h (by simp)
    · omega

theorem natCmp_swap (a b : Nat) : natCmp a b = (natCmp b a).swap := by
  unfold natCmp
  rcases Nat.lt_trichotomy a b with h | h | h
  · simp [h, Nat.lt_asymm h, Ordering.swap]
  · subst h; simp [Nat.lt_irrefl, Ordering.swap]
  · simp [h, Nat.lt_asymm h, Ordering.swap]

theorem listCharCmp_self : ∀ l : List Char, listCharCmp l l = .eq
  | [] => rfl
  | c :: cs => by simp [listCharCmp, natCmp_self, listCharCmp_self cs]

theorem listCharCmp_eq_eq : ∀ {l₁ l₂ : List Char}, listCharCmp l₁ l₂ = .eq → l₁ = l₂
  | [], [], _ => rfl
  | [], _ :: _, h => absurd h (by simp [listCharCmp])
  | _ :: _, [], h => absurd h (by simp [listCharCmp])
  | a :: as, b :: bs, h => by
    unfold listCharCmp at h
    cases hc : natCmp a.toNat b.toNat with
    | eq =>
      rw [hc] at h
      have hab : a = b := Char.eq_of_val_eq (UInt32.ext (natCmp_eq_eq hc))
      rw [hab, listCharCmp_eq_eq h]
    | lt => rw [hc] at h; exact absurd h (by simp)
    | gt => rw [hc] at h; exact absurd h (by simp)

theorem listCharCmp_swap : ∀ l₁ l₂ : List Char, listCharCmp l₁ l₂ = (listCharCmp l₂ l₁).swap
  | [], [] => rfl
  | [], _ :: _ => rfl
  | _ :: _, [] => rfl
  | a :: as, b :: bs => by
    unfold listCharCmp
    rw [natCmp_swap a.toNat b.toNat]
    cases natCmp b.toNat a.toNat with
    | eq => simpa [Ordering.swap] using listCharCmp_swap as bs
    | lt => simp [Ordering.swap]
    | gt => simp [Ordering.swap]

theorem strCmpJs_self (s : String) : strCmpJs s s = .eq := listCharCmp_self s.data

theorem strCmpJs_eq_eq {a b : String} (h : strCmpJs a b = .eq) : a = b :=
  string_eq_of_data_eq (listCharCmp_eq_eq h)

theorem strCmpJs_swap (a b : String) : strCmpJs a b = (strCmpJs b a).swap :=
  listCharCmp_swap a.data b.data

theorem ordering_then_eq (o : Ordering) : Ordering.eq.then o = o := rfl

theorem ordering_then_of_ne {o : Ordering} (h : o ≠ .eq) (o2 : Ordering) :
    o.then o2 = o := by
  cases o with
  | eq => exact absurd rfl h
  | lt => rfl
  | gt => rfl

theorem ordering_swap_then (o1 o2 : Ordering) :
    (o1.then o2).swap = o1.swap.then o2.swap := by
  cases o1 <;> rfl

/-- The source's comparator computes exactly the specification's key-tuple
comparison. -/
theorem modelCmp_eq_specModelCmp (a b : ModelDescription) :
    modelCmp a b = specModelCmp a b := by
  unfold modelCmp specModelCmp
  by_cases h : jsTake5 a.id = jsTake5 b.id
  · rw [if_pos h, h, strCmpJs_self, ordering_then_eq]
    by_cases h2 : dashSegments a.id = dashSegments b.id
    · rw [if_pos h2, h2, natCmp_self, ordering_then_eq]
    · rw [if_neg h2, ordering_then_of_ne (fun he => h2 (natCmp_eq_eq he))]
  · rw [if_neg h,
      ordering_then_of_ne (fun he => h (strCmpJs_eq_eq he).symm)]

theorem modelLe_eq_specModelLe (a b : ModelDescription) :
    modelLe a b = specModelLe a b := by
  simp [modelLe, specModelLe, modelCmp_eq_specModelCmp]

theorem specModelCmp_swap (a b : ModelDescription) :
    specModelCmp a b = (specModelCmp b a).swap := by
  unfold specModelCmp
  rw [ordering_swap_then, ordering_swap_then, ← strCmpJs_swap, ← natCmp_swap, ← strCmpJs_swap]

theorem specModelLe_total (a b : ModelDescription) :
    specModelLe a b = true ∨ specModelLe b a = true := by
  by_cases h : specModelCmp a b = .gt
  · right
    have hs := specModelCmp_swap a b
    rw [h] at hs
    unfold specModelLe
    cases h2 : specModelCmp b a with
    | lt => simp
    | eq => simp
    | gt => rw [h2] at hs; exact absurd hs (by decide)
  · left
    unfold specModelLe
    simp [h]

theorem insertBy_perm {α : Type} (le : α → α → Bool) (x : α) :
    ∀ l : List α, (insertBy le x l).Perm (x :: l)
  | [] => List.Perm.refl _
  | y :: ys => by
    unfold insertBy
    split
    · exact List.Perm.refl _
    · exact ((insertBy_perm le x ys).cons y).trans (List.Perm.swap x y ys)

theorem sortBy_perm {α : Type} (le : α → α → Bool) :
    ∀ l : List α, (sortBy le l).Perm l
  | [] => List.Perm.refl _
  | x :: xs =>
    (insertBy_perm le x (sortBy le xs)).trans ((sortBy_perm le xs).cons x)

theorem chain'_insertBy {α : Type} {le : α → α → Bool}
    (total : ∀ a b, le a b = true ∨ le b a = true) (x : α) :
    ∀ l : List α, List.Chain' (fun a b => le a b = true) l →
      List.Chain' (fun a b => le a b = true) (insertBy le x l)
  | [], _ => List.chain'_singleton x
  | y :: ys, h => by
    unfold insertBy
    split
    · rename_i hxy
      exact List.chain'_cons.mpr ⟨hxy, h⟩
    · rename_i hxy
      have hyx : le y x = true := (total x y).resolve_left (by simpa using hxy)
      cases ys with
      | nil =>
        exact List.chain'_cons.mpr ⟨hyx, List.chain'_singleton x⟩
      | cons z zs =>
        have hyz : le y z = true := (List.chain'_cons.mp h).1
        have htail := chain'_insertBy total x (z :: zs) (List.chain'_cons.mp h).2
        by_cases hc : le x z = true
        · rw [insertBy, if_pos hc] at htail ⊢
          exact List.chain'_cons.mpr ⟨hyx, htail⟩
        · rw [insertBy, if_neg hc] at htail ⊢
          exact List.chain'_cons.mpr ⟨hyz, htail⟩

theorem chain'_sortBy {α : Type} {le : α → α → Bool}
    (total : ∀ a b, le a b = true ∨ le b a = true) :
    ∀ l : List α, List.Chain' (fun a b => le a b = true) (sortBy le l)
  | [] => List.chain'_nil
  | x :: xs => chain'_insertBy total x (sortBy le xs) (chain'_sortBy total xs)

/-! ## Claim theorems -/

/-- C1: for a completion choice with `finish_reason = "function_call"`, null
content, and a `function_call` payload carrying a non-empty name and an
arguments string that JSON-decodes to an object, when functions were offered
the call returns the FunctionCall variant with that name and the decoded
object. -/
theorem function_call_disambiguation_success (role name args : String)
    (kvs : List (String × Json)) (hname : name ≠ "")
    (hdec : jsonParse args = some (.obj kvs)) :
    chatGenerateParse true
        ⟨some [⟨⟨role, none, some ⟨name, args⟩⟩, some "function_call"⟩]⟩
      = .ok (.functionCall name (.obj kvs)) := by
  have hargs : args ≠ "" := fun he => by
    rw [he] at hdec
    exact Option.noConfusion hdec
  simp [chatGenerateParse, parseChatGenerateFCOutput, hname, hargs, hdec]

/-- Witness for C1 at name `"f"` and arguments `{"a":1}`. -/
theorem function_call_disambiguation_success_witness :
    ("f" : String) ≠ "" ∧
    jsonParse "\x7b\"a\":1\x7d" = some (.obj [("a", Json.num 1)]) ∧
    chatGenerateParse true
        ⟨some [⟨⟨"assistant", none, some ⟨"f", "\x7b\"a\":1\x7d"⟩⟩,
          some "function_call"⟩]⟩
      = .ok (.functionCall "f" (.obj [("a", Json.num 1)])) :=
  ⟨by decide, rfl,
    function_call_disambiguation_success "assistant" "f" "\x7b\"a\":1\x7d"
      [("a", Json.num 1)] (by decide) rfl⟩

/-- C2: when the `choices` array does not have length exactly 1, the call
fails with the `INTERNAL_SERVER_ERROR` "Expected 1 completion" error before
any disambiguation of the message is performed (the error depends only on
the choice count, never on the messages). -/
theorem choice_count_violation_fails (isFC : Bool) (wire : WireChatResponse)
    (h : wire.choices.map List.length ≠ some 1) :
    chatGenerateParse isFC wire = .error (expectedOneError wire.choices) ∧
    (expectedOneError wire.choices).code = .INTERNAL_SERVER_ERROR := by
  refine ⟨?_, rfl⟩
  rcases wire with ⟨choices⟩
  rcases choices with _ | cs
  · rfl
  · rcases cs with _ | ⟨c, cs2⟩
    · rfl
    · rcases cs2 with _ | ⟨c2, cs3⟩
      · simp at h
      · rfl

/-- Witness for C2 at a two-element `choices` array. -/
theorem choice_count_violation_fails_witness :
    (WireChatResponse.mk
        (some [⟨⟨"assistant", some "x", none⟩, some "stop"⟩,
          ⟨⟨"assistant", some "y", none⟩, some "stop"⟩])).choices.map List.length
      ≠ some 1 ∧
    chatGenerateParse true
        ⟨some [⟨⟨"assistant", some "x", none⟩, some "stop"⟩,
          ⟨⟨"assistant", some "y", none⟩, some "stop"⟩]⟩
      = .error (expectedOneError
          (some [⟨⟨"assistant", some "x", none⟩, some "stop"⟩,
            ⟨⟨"assistant", some "y", none⟩, some "stop"⟩])) :=
  ⟨by decide,
    (choice_count_violation_fails true
      ⟨some [⟨⟨"assistant", some "x", none⟩, some "stop"⟩,
        ⟨⟨"assistant", some "y", none⟩, some "stop"⟩]⟩ (by decide)).1⟩

/-- C3 counterexample: for arguments `"not json"` disambiguation fails, but
the error's kind is `INTERNAL_SERVER_ERROR` — the same code as the
contract-violation failures — not the `BAD_REQUEST` kind the claim assigns
to malformed function-call arguments. -/
theorem decode_error_kind_counterexample :
    parseChatGenerateFCOutput true ⟨"assistant", none, some ⟨"f", "not json"⟩⟩
        = .error badJsonArgsError ∧
    badJsonArgsError.code = .INTERNAL_SERVER_ERROR ∧
    badJsonArgsError.code ≠ .BAD_REQUEST ∧
    badJsonArgsError.code = fcNotRequestedError.code :=
  ⟨rfl, rfl, by decide, rfl⟩

/-- C3 amended: for any function-call payload whose arguments string fails to
JSON-decode, disambiguation fails with the dedicated "arguments are not valid
JSON" error, whose message is distinct from every other disambiguation
failure but whose code is `INTERNAL_SERVER_ERROR` (shared with the
contract-violation errors), not `BAD_REQUEST`. -/
theorem decode_error_distinct_message (role name args : String) (hname : name ≠ "")
    (hargs : args ≠ "") (hdec : jsonParse args = none) :
    parseChatGenerateFCOutput true ⟨role, none, some ⟨name, args⟩⟩
        = .error badJsonArgsError ∧
    badJsonArgsError.code = .INTERNAL_SERVER_ERROR ∧
    badJsonArgsError.code ≠ .BAD_REQUEST ∧
    badJsonArgsError.message ≠ fcNotRequestedError.message ∧
    badJsonArgsError.message ≠ gotMessageError.message ∧
    badJsonArgsError.message ≠ missingNameArgsError.message := by
  refine ⟨?_, rfl, by decide, by decide, by decide, by decide⟩
  simp [parseChatGenerateFCOutput, hname, hargs, hdec]

/-- Witness for the amended C3 at arguments `"not json"`. -/
theorem decode_error_distinct_message_witness :
    ("f" : String) ≠ "" ∧ ("not json" : String) ≠ "" ∧
    jsonParse "not json" = none ∧
    parseChatGenerateFCOutput true ⟨"assistant", none, some ⟨"f", "not json"⟩⟩
      = .error badJsonArgsError :=
  ⟨by decide, by decide, rfl,
    (decode_error_distinct_message "assistant" "f" "not json"
      (by decide) (by decide) rfl).1⟩

/-- C4 counterexample: handed an empty (non-null) functions array, the wire
payload builder does emit `functions: []` together with
`function_call: "auto"` — the empty array is sent. -/
theorem empty_functions_array_sent_counterexample :
    (openAIChatCompletionPayload ⟨"gpt-4", none, none⟩ [] (some []) 1 false).functions
        = some [] ∧
    (openAIChatCompletionPayload ⟨"gpt-4", none, none⟩ [] (some []) 1 false).function_call
        = some "auto" :=
  ⟨rfl, rfl⟩

/-- C4 amended: the builder echoes any non-null functions array (including an
empty one) together with `function_call:"auto"`; it is the router
(`chatGenerateWithFunctions`) that passes `null` unless the caller's list is
non-null and non-empty, so the request it builds carries the two fields iff
the caller's array is non-null and non-empty. -/
theorem functions_field_iff_nonempty (model : ModelSchema) (history : List ChatMessage)
    (fns : Option (List FunctionDef)) :
    ((routerChatPayload model history fns).functions ≠ none ↔
      ∃ l, fns = some l ∧ l ≠ []) ∧
    ((routerChatPayload model history fns).function_call = some "auto" ↔
      ∃ l, fns = some l ∧ l ≠ []) ∧
    (openAIChatCompletionPayload model history fns 1 false).functions = fns := by
  refine ⟨?_, ?_, rfl⟩ <;>
  · rcases fns with _ | ⟨_ | ⟨f, fs⟩⟩ <;>
      simp [routerChatPayload, isFunctionsCall, openAIChatCompletionPayload]

/-- Witness for the amended C4 at a singleton functions list and at `none`. -/
theorem functions_field_iff_nonempty_witness :
    (((routerChatPayload ⟨"gpt-4", none, none⟩ [] (some [⟨"f", none, none⟩])).functions
        ≠ none ↔ ∃ l, (some [⟨"f", none, none⟩] : Option (List FunctionDef)) = some l ∧ l ≠ []) ∧
      ((routerChatPayload ⟨"gpt-4", none, none⟩ [] (some [⟨"f", none, none⟩])).function_call
        = some "auto" ↔ ∃ l, (some [⟨"f", none, none⟩] : Option (List FunctionDef)) = some l ∧ l ≠ []) ∧
      (openAIChatCompletionPayload ⟨"gpt-4", none, none⟩ [] (some [⟨"f", none, none⟩]) 1 false).functions
        = some [⟨"f", none, none⟩]) :=
  functions_field_iff_nonempty ⟨"gpt-4", none, none⟩ [] (some [⟨"f", none, none⟩])

/-- C6: a choice with `finish_reason = "function_call"` when no functions were
offered fails with the `INTERNAL_SERVER_ERROR` "function call without a
function call request" error. -/
theorem function_call_without_request_fails (choice : WireChoice)
    (h : choice.finish_reason = some "function_call") :
    chatGenerateParse false ⟨some [choice]⟩ = .error fcNotRequestedError ∧
    fcNotRequestedError.code = .INTERNAL_SERVER_ERROR := by
  refine ⟨?_, rfl⟩
  simp [chatGenerateParse, h, parseChatGenerateFCOutput]

/-- Witness for C6 at a concrete function-call choice. -/
theorem function_call_without_request_fails_witness :
    (WireChoice.mk ⟨"assistant", none, some ⟨"f", "1"⟩⟩
        (some "function_call")).finish_reason = some "function_call" ∧
    chatGenerateParse false
        ⟨some [⟨⟨"assistant", none, some ⟨"f", "1"⟩⟩, some "function_call"⟩]⟩
      = .error fcNotRequestedError :=
  ⟨rfl,
    (function_call_without_request_fails
      ⟨⟨"assistant", none, some ⟨"f", "1"⟩⟩, some "function_call"⟩ rfl).1⟩

/-- C7: a function-call message that also carries non-null content makes
disambiguation fail with a provider-issue (`[OpenAI Issue]`,
`INTERNAL_SERVER_ERROR`) error; and every successful call yields exactly one
of the Message / FunctionCall variants, never both. -/
theorem content_with_function_call_exclusive :
    (∀ (isFC : Bool) (msg : WireMessage), msg.content ≠ none →
        ∃ e, parseChatGenerateFCOutput isFC msg = .error e ∧
          e.code = .INTERNAL_SERVER_ERROR ∧
          jsStartsWith e.message "[OpenAI Issue]" = true) ∧
    (∀ (isFC : Bool) (wire : WireChatResponse) (out : ChatOutcome),
        chatGenerateParse isFC wire = .ok out →
        (out.isMessage = true ∧ out.isFunctionCall = false) ∨
        (out.isMessage = false ∧ out.isFunctionCall = true)) := by
  constructor
  · intro isFC msg h
    cases isFC with
    | false => exact ⟨fcNotRequestedError, rfl, rfl, by decide⟩
    | true =>
      refine ⟨gotMessageError, ?_, rfl, by decide⟩
      simp [parseChatGenerateFCOutput, h]
  · intro isFC wire out _
    cases out with
    | message r c f => exact Or.inl ⟨rfl, rfl⟩
    | functionCall n a => exact Or.inr ⟨rfl, rfl⟩

/-- Witness for C7: a message with content, and a successful plain-message
parse. -/
theorem content_with_function_call_exclusive_witness :
    (∃ e, parseChatGenerateFCOutput true ⟨"assistant", some "hi", none⟩ = .error e ∧
      e.code = .INTERNAL_SERVER_ERROR ∧
      jsStartsWith e.message "[OpenAI Issue]" = true) ∧
    (((ChatOutcome.message "assistant" "hello" (some "stop")).isMessage = true ∧
        (ChatOutcome.message "assistant" "hello" (some "stop")).isFunctionCall = false) ∨
      ((ChatOutcome.message "assistant" "hello" (some "stop")).isMessage = false ∧
        (ChatOutcome.message "assistant" "hello" (some "stop")).isFunctionCall = true)) :=
  ⟨content_with_function_call_exclusive.1 true ⟨"assistant", some "hi", none⟩ (by decide),
    content_with_function_call_exclusive.2 false
      ⟨some [⟨⟨"assistant", some "hello", none⟩, some "stop"⟩]⟩
      (.message "assistant" "hello" (some "stop")) rfl⟩

/-- C10: an empty-string name or empty-string arguments in the function-call
payload is rejected with the "missing name or arguments" error (emptiness is
treated as absence), before JSON decoding is attempted — the decode-failure
error is a different error. -/
theorem empty_name_or_arguments_missing_error (role name args : String)
    (h : name = "" ∨ args = "") :
    parseChatGenerateFCOutput true ⟨role, none, some ⟨name, args⟩⟩
        = .error missingNameArgsError ∧
    missingNameArgsError ≠ badJsonArgsError ∧
    missingNameArgsError.code = .INTERNAL_SERVER_ERROR := by
  refine ⟨?_, by decide, rfl⟩
  simp [parseChatGenerateFCOutput, h]

/-- Witness for C10 at an empty arguments string. -/
theorem empty_name_or_arguments_missing_error_witness :
    (("f" : String) = "" ∨ ("" : String) = "") ∧
    parseChatGenerateFCOutput true ⟨"assistant", none, some ⟨"f", ""⟩⟩
      = .error missingNameArgsError :=
  ⟨Or.inr rfl,
    (empty_name_or_arguments_missing_error "assistant" "f" "" (Or.inr rfl)).1⟩

/-- C9 counterexample: an error body that parses as JSON `null` is classified
like a parse failure — the message is the HTTP status text, not a
provider-derived message — although the body did parse as JSON. -/
theorem null_error_body_counterexample :
    openaiPOSTResult ⟨false, "Internal Server Error", .ok Json.null⟩
        = .error ⟨.BAD_REQUEST, "[Issue] Internal Server Error"⟩ ∧
    jsStartsWith "[Issue] Internal Server Error" "[OpenAI Issue]" = false ∧
    jsTruthy Json.null = false :=
  ⟨rfl, by decide, rfl⟩

/-- C9 amended: on a non-success status the call fails as `BAD_REQUEST`,
carrying the provider chain (`error.message`, else `error`, else the
stringified body) only when the body parses to a truthy JSON value; when the
body fails to parse or parses to a falsy value (such as `null`), the HTTP
status text is surfaced. On a success status an undecodable body fails with
`INTERNAL_SERVER_ERROR`, distinct from `BAD_REQUEST`. -/
theorem post_error_classification :
    (∀ (st : String) (v : Json), jsTruthy v = true →
        openaiPOSTResult ⟨false, st, .ok v⟩
          = .error ⟨.BAD_REQUEST, "[OpenAI Issue] " ++ providerErrMsg v⟩) ∧
    (∀ (st : String) (v : Json), jsTruthy v = false →
        openaiPOSTResult ⟨false, st, .ok v⟩
          = .error ⟨.BAD_REQUEST, "[Issue] " ++ st⟩) ∧
    (∀ (st emsg : String),
        openaiPOSTResult ⟨false, st, .error emsg⟩
          = .error ⟨.BAD_REQUEST, "[Issue] " ++ st⟩) ∧
    (∀ (st emsg : String),
        openaiPOSTResult ⟨true, st, .error emsg⟩
          = .error ⟨.INTERNAL_SERVER_ERROR, "[OpenAI Issue] " ++ emsg⟩) ∧
    (∀ (st : String) (v : Json), openaiPOSTResult ⟨true, st, .ok v⟩ = .ok v) ∧
    TRPCCode.INTERNAL_SERVER_ERROR ≠ TRPCCode.BAD_REQUEST := by
  refine ⟨?_, ?_, fun st emsg => rfl, fun st emsg => rfl, fun st v => rfl, by decide⟩
  · intro st v h
    simp [openaiPOSTResult, h]
  · intro st v h
    simp [openaiPOSTResult, h]

/-- Witness for the amended C9 at a truthy body, a `null` body, and a
success-status decode failure. -/
theorem post_error_classification_witness :
    jsTruthy (Json.str "boom") = true ∧
    openaiPOSTResult ⟨false, "Bad Request", .ok (Json.str "boom")⟩
      = .error ⟨.BAD_REQUEST, "[OpenAI Issue] " ++ providerErrMsg (Json.str "boom")⟩ ∧
    jsTruthy Json.null = false ∧
    openaiPOSTResult ⟨false, "Bad Request", .ok Json.null⟩
      = .error ⟨.BAD_REQUEST, "[Issue] " ++ "Bad Request"⟩ ∧
    openaiPOSTResult ⟨true, "OK", .error "bad json"⟩
      = .error ⟨.INTERNAL_SERVER_ERROR, "[OpenAI Issue] " ++ "bad json"⟩ :=
  ⟨rfl, post_error_classification.1 "Bad Request" (Json.str "boom") rfl, rfl,
    post_error_classification.2.1 "Bad Request" Json.null rfl,
    post_error_classification.2.2.2.1 "OK" "bad json"⟩

/-- C5 counterexample: the host `"httpx.com"` has no URL scheme, yet because
it starts with the literal `"http"` the code does not prefix `https://`; the
resolved URL is `"httpx.com/v1/models"`, which does not begin with
`https://`. -/
theorem schemeless_http_host_counterexample :
    openAIAccess ⟨"", "", "", ""⟩ ⟨"k", "", "httpx.com", "", false⟩ "/v1/models"
        = .ok ([("Authorization", "Bearer k"), ("Content-Type", "application/json")],
            "httpx.com/v1/models") ∧
    jsIncludes "httpx.com" "://" = false ∧
    jsStartsWith "httpx.com/v1/models" "https://" = false ∧
    resolvedHost ⟨"", "", "", ""⟩ ⟨"k", "", "httpx.com", "", false⟩ = "httpx.com" :=
  ⟨rfl, by decide, by decide, rfl⟩

/-- C5 amended: a resolved host failing the `startsWith("http")` test (rather
than: lacking a scheme) yields a URL beginning with `https://`; the URL a
successful `openAIAccess` returns is the normalized host concatenated with
the path; and for host `"https://x.com/"` and path `"/v1/models"` exactly the
one redundant boundary slash is collapsed. -/
theorem host_scheme_and_slash_normalization :
    (∀ (env : Env) (access : AccessSchema) (apiPath : String),
        jsStartsWith (resolvedHost env access) "http" = false →
        jsStartsWith (resolvedUrl env access apiPath) "https://" = true) ∧
    (∀ (env : Env) (access : AccessSchema) (apiPath : String)
        (hdrs : List (String × String)) (url : String),
        openAIAccess env access apiPath = .ok (hdrs, url) →
        url = resolvedUrl env access apiPath) ∧
    openAIAccess ⟨"", "", "", ""⟩ ⟨"k", "", "https://x.com/", "", false⟩ "/v1/models"
      = .ok ([("Authorization", "Bearer k"), ("Content-Type", "application/json")],
          "https://x.com/v1/models") :=
  ⟨fun env access apiPath h => resolvedUrl_startsWith_https env access apiPath h,
    fun env access apiPath hdrs url h => openAIAccess_url_eq env access apiPath hdrs url h,
    rfl⟩

/-- Witness for the amended C5 at host `"x.com"` (no scheme) and at the
concrete slash-collapse example. -/
theorem host_scheme_and_slash_normalization_witness :
    jsStartsWith (resolvedHost ⟨"", "", "", ""⟩ ⟨"k", "", "x.com", "", false⟩) "http"
        = false ∧
    jsStartsWith
        (resolvedUrl ⟨"", "", "", ""⟩ ⟨"k", "", "x.com", "", false⟩ "/v1/models")
        "https://" = true ∧
    "https://x.com/v1/models"
      = resolvedUrl ⟨"", "", "", ""⟩ ⟨"k", "", "https://x.com/", "", false⟩ "/v1/models" :=
  ⟨by decide,
    host_scheme_and_slash_normalization.1 ⟨"", "", "", ""⟩
      ⟨"k", "", "x.com", "", false⟩ "/v1/models" (by decide),
    host_scheme_and_slash_normalization.2.1 ⟨"", "", "", ""⟩
      ⟨"k", "", "https://x.com/", "", false⟩ "/v1/models"
      [("Authorization", "Bearer k"), ("Content-Type", "application/json")]
      "https://x.com/v1/models" rfl⟩

/-- C8: `listModels` keeps exactly the catalog entries whose id contains
`"gpt"` and orders them by the key tuple (first 5 characters of id
descending, `'-'`-segment count ascending, full id ascending); on the ids
`["gpt-4-0314","gpt-4","text-davinci-003","gpt-3.5-turbo"]` it excludes
`text-davinci-003` and returns `["gpt-4","gpt-4-0314","gpt-3.5-turbo"]`. -/
theorem list_models_filter_sort_spec :
    (∀ models : List ModelDescription,
        listModelsFilterSort models
            = sortBy specModelLe (models.filter (fun m => jsIncludes m.id "gpt")) ∧
          (listModelsFilterSort models).Perm
            (models.filter (fun m => jsIncludes m.id "gpt")) ∧
          List.Chain' (fun a b => specModelLe a b = true) (listModelsFilterSort models) ∧
          ∀ m, m ∈ listModelsFilterSort models ↔
            m ∈ models ∧ jsIncludes m.id "gpt" = true) ∧
    listModelsFilterSort
        [⟨"gpt-4-0314"⟩, ⟨"gpt-4"⟩, ⟨"text-davinci-003"⟩, ⟨"gpt-3.5-turbo"⟩]
      = [⟨"gpt-4"⟩, ⟨"gpt-4-0314"⟩, ⟨"gpt-3.5-turbo"⟩] := by
  have hle : modelLe = specModelLe :=
    funext fun a => funext fun b => modelLe_eq_specModelLe a b
  constructor
  · intro models
    refine ⟨?_, ?_, ?_, ?_⟩
    · unfold listModelsFilterSort
      rw [hle]
    · exact sortBy_perm _ _
    · unfold listModelsFilterSort
      rw [hle]
      exact chain'_sortBy specModelLe_total _
    · intro m
      unfold listModelsFilterSort
      rw [List.Perm.mem_iff (sortBy_perm _ _)]
      exact List.mem_filter
  · decide

end OpenAIRouter
